import Mathlib

/-
Verification development for the tgbf plugin framework
(src/tgbf/plugin.py and src/tgbf/start.py).

The Python code is shallowly embedded: pure computations become Lean
functions, filesystem / sqlite / telegram effects become an explicit
list of `Effect` values, and the outcomes of external calls that may
raise (os.makedirs, sqlite3.connect/execute/commit/fetchall, file
reads) are supplied by small environment records, one field per
try-protected call site.  Machine-level details (real paths on disk,
the sqlite engine itself) are out of scope; the embedded functions
mirror the control flow of the Python source line by line.

tgbf/config.py (ConfigManager) and tgbf/constants.py are part of the
repository but are not under src/; following the specification they
are modelled as documented there: ConfigManager.get returns the value
at a key path or a no-value sentinel (PyVal.none), and the directory
constants follow the documented path convention
source-root/plugins-root/plugin-name/(resources|config|data).
-/

namespace TGBF

/-- PyVal models the JSON-shaped Python values that flow through the
configuration store and sqlite rows: None, booleans, integers,
strings and lists. -/
inductive PyVal where
  | none : PyVal
  | bool : Bool → PyVal
  | int : Int → PyVal
  | str : String → PyVal
  | list : List PyVal → PyVal

/-- Python truthiness of a PyVal, as used by `if value:` tests:
None, False, 0, the empty string and the empty list are falsy. -/
def PyVal.truthy : PyVal → Bool
  | .none => false
  | .bool b => b
  | .int n => n != 0
  | .str s => s ≠ ""
  | .list l => !l.isEmpty

/-- Python isinstance(v, list). -/
def PyVal.isList : PyVal → Bool
  | .list _ => true
  | _ => false

/-- Python `v == False`: only False itself and the number 0 compare
equal to False. -/
def PyVal.eqFalse : PyVal → Bool
  | .bool b => !b
  | .int n => n == 0
  | _ => false

/-- Python `user_id in v` for an integer user_id: membership via ==
in a list (admin id lists hold integers per the global-config
interface); False for any non-list value. -/
def PyVal.hasInt (x : Int) : PyVal → Bool
  | .list l => l.any fun v =>
      match v with
      | .int n => n == x
      | _ => false
  | _ => false

/-- Observable side effects of the embedded code, in program order:
directory creation attempts, sqlite connection attempts (with the
timeout passed, if any), log lines, admin notifications, chat
replies and file writes. -/
inductive Effect where
  | makedirs : String → Effect
  | connect : String → Option PyVal → Effect
  | log : String → Effect
  | notify : String → Effect
  | reply : String → Effect
  | writeFile : String → String → Effect

/-- os.path.join of two components (the second component is never
absolute in the embedded code). -/
def joinPath (a b : String) : String :=
  if a = "" then b else a ++ "/" ++ b

/-- os.path.dirname: everything before the final separator. -/
def dirname (p : String) : String :=
  String.intercalate "/" ((p.splitOn "/").dropLast)

/- Modelled from the spec: tgbf/constants.py is not under src/.  The
spec fixes only the path convention
source-root/plugins-root/plugin-name/(resources|config|data) and the
existence of one global storage file; the concrete strings below are
representative names, no claim depends on their exact value. -/

/-- Modelled from the spec: source-root directory constant (c.DIR_SRC). -/
def DIR_SRC : String := "tgbf"

/-- Modelled from the spec: plugins-root directory constant (c.DIR_PLG). -/
def DIR_PLG : String := "plugins"

/-- Modelled from the spec: resource directory constant (c.DIR_RES). -/
def DIR_RES : String := "resources"

/-- Modelled from the spec: config directory constant (c.DIR_CFG). -/
def DIR_CFG : String := "config"

/-- Modelled from the spec: data directory constant (c.DIR_DAT). -/
def DIR_DAT : String := "data"

/-- Modelled from the spec: global storage file constant (c.FILE_DAT). -/
def FILE_DAT : String := "global.db"

/-- get_res_path (plugin.py line 399): resource directory of a plugin. -/
def getResPath (plugin : String) : String :=
  joinPath (joinPath (joinPath DIR_SRC DIR_PLG) plugin) DIR_RES

/-- get_cfg_path (plugin.py line 405): config directory of a plugin. -/
def getCfgPath (plugin : String) : String :=
  joinPath (joinPath (joinPath DIR_SRC DIR_PLG) plugin) DIR_CFG

/-- get_dat_path (plugin.py line 411): data directory of a plugin. -/
def getDatPath (plugin : String) : String :=
  joinPath (joinPath (joinPath DIR_SRC DIR_PLG) plugin) DIR_DAT

/-- Result dictionary of the storage gateway
(plugin.py line 307: res has keys success and data, both
initialised to None). -/
inductive SqlData where
  | none : SqlData
  | str : String → SqlData
  | rows : List (List PyVal) → SqlData

/-- Result record returned by _get_database_content. -/
structure SqlResult where
  success : Option Bool
  data : SqlData

/-- Results of the global-config lookups the embedded code performs
(ConfigManager is modelled from the spec: get returns the stored
value or the no-value sentinel PyVal.none). -/
structure GlobalCfg where
  useDb : PyVal      -- global_config.get("database", "use_db")
  timeout : PyVal    -- global_config.get("database", "timeout")
  adminIds : PyVal   -- global_config.get("admin", "ids")

/-- Results of the per-plugin config lookups the embedded code
performs. -/
structure PluginCfg where
  handleCfg : Option String  -- config.get("handle"), a string when present
  owner : PyVal              -- config.get("owner")
  admins : PyVal             -- config.get("admins")
  dependencies : PyVal       -- config.get("dependencies")

/-- Outcomes of the external calls inside _get_database_content:
makedirsErr is the exception text of os.makedirs when it raises
(line 321), dbStep is the combined outcome of
connect/cursor/execute/commit/fetchall (lines 332-337) - the fetched
rows on success or the exception text of whichever call raised. -/
structure DbEnv where
  makedirsErr : Option String
  dbStep : Except String (List (List PyVal))

/-- _get_database_content (plugin.py lines 304-350).  When storage is
disabled it returns early with no effects.  Otherwise it attempts
os.makedirs; note that the except branch at lines 322-326 records a
failure result, logs and notifies but does NOT return, so control
always continues to the connection attempt, whose outcome overwrites
res; the finally block returns res on every path, so nothing is
raised to the caller (the embedding is a total function). -/
def getDatabaseContent (gcfg : GlobalCfg) (env : DbEnv)
    (dbPath : String) : SqlResult × List Effect :=
  if gcfg.useDb.truthy = false then
    ({ success := some false, data := .str "Database disabled" }, [])
  else
    let dbTimeout : PyVal :=
      if gcfg.timeout.truthy then gcfg.timeout else .int 5
    let mkEffs : List Effect :=
      match env.makedirsErr with
      | Option.none => [.makedirs (dirname dbPath)]
      | some e => [.makedirs (dirname dbPath), .log e, .notify e]
    match env.dbStep with
    | .ok rows =>
        ({ success := some true, data := .rows rows },
         mkEffs ++ [.connect dbPath (some dbTimeout)])
    | .error e =>
        ({ success := some false, data := .str e },
         mkEffs ++ [.connect dbPath (some dbTimeout), .log e, .notify e])

/-- Python str.endswith: True when the last characters of s are
exactly the suffix. -/
def strEndsWith (s suffix : String) : Bool :=
  if suffix.length ≤ s.length then
    (s.data.drop (s.length - suffix.length)) == suffix.data
  else false

/-- Database-name resolution shared verbatim by execute_sql
(lines 286-293) and table_exists (lines 361-368): an explicit db_name
gets a .db suffix appended when its lowercasing does not already end
in .db; otherwise the target plugin name (or the calling plugin's own
name) plus .db.  The absent values None and the empty string are both
falsy, so a single String parameter with sentinel value the empty
string covers both signatures. -/
def resolveDbName (selfName plugin dbName : String) : String :=
  if dbName ≠ "" then
    if !(strEndsWith dbName.toLower ".db") then dbName ++ ".db" else dbName
  else
    if plugin ≠ "" then plugin ++ ".db" else selfName ++ ".db"

/-- Storage path computed by execute_sql (lines 295-300): when a
target plugin is given its name is lowercased for the directory
component (line 296) - after db_name was already derived from the
original spelling. -/
def executeSqlPath (selfName plugin dbName : String) : String :=
  if plugin ≠ "" then
    joinPath (getDatPath plugin.toLower) (resolveDbName selfName plugin dbName)
  else
    joinPath (getDatPath selfName) (resolveDbName selfName plugin dbName)

/-- execute_sql (plugin.py lines 266-302): resolve the database name
and path, then delegate to _get_database_content.  The sql text and
arguments only influence the outcome through env.dbStep. -/
def executeSql (selfName : String) (gcfg : GlobalCfg) (env : DbEnv)
    (plugin dbName : String) : SqlResult × List Effect :=
  getDatabaseContent gcfg env (executeSqlPath selfName plugin dbName)

/-- execute_global_sql (plugin.py lines 246-264): the single global
storage file under the working directory. -/
def executeGlobalSql (cwd : String) (gcfg : GlobalCfg) (env : DbEnv) :
    SqlResult × List Effect :=
  getDatabaseContent gcfg env (joinPath (joinPath cwd DIR_DAT) FILE_DAT)

/-- Storage path computed by table_exists (lines 370-373): unlike
execute_sql, the plugin name is NOT lowercased here. -/
def tableExistsPath (selfName plugin dbName : String) : String :=
  if plugin ≠ "" then
    joinPath (getDatPath plugin) (resolveDbName selfName plugin dbName)
  else
    joinPath (getDatPath selfName) (resolveDbName selfName plugin dbName)

/-- Outcome of _database_table_exists: either an exception escapes to
the caller or a boolean is returned. -/
inductive TEOutcome where
  | raises : String → TEOutcome
  | ret : Bool → TEOutcome

/-- Outcomes of the external calls inside _database_table_exists:
isFile is Path(db_path).is_file() (line 380); connectErr the outcome
of the UNPROTECTED sqlite3.connect at line 383; resource the outcome
of reading the global table_exists.sql script (through
_get_resource_content, which catches its own failures); probe the
outcome of cur.execute(...).fetchone() truthiness (line 390) when a
statement string was obtained. -/
structure TEEnv where
  isFile : Bool
  connectErr : Option String
  resource : Except String String
  probe : Except String Bool

/-- _database_table_exists (plugin.py lines 377-397).  A missing file
returns False before any effect.  The connect call at line 383 sits
outside the try block, so a connect failure raises to the caller.
The probe statement is read via get_global_resource: a read failure
is logged and notified and leaves statement = None, upon which
cur.execute(None, ...) raises a TypeError that IS caught by the
except block at line 392.  Any probe failure is logged, notified and
leaves exists = False. -/
def databaseTableExists (env : TEEnv) (dbPath tableName : String) :
    TEOutcome × List Effect :=
  let _ := tableName  -- passed to the probe statement, outcome in env.probe
  if env.isFile = false then
    (.ret false, [])
  else
    match env.connectErr with
    | some e => (.raises e, [.connect dbPath Option.none])
    | Option.none =>
      match env.resource with
      | .error e =>
          -- statement is None; cur.execute raises, caught at line 392
          let e2 := "TypeError: sql statement must be a string"
          (.ret false,
           [.connect dbPath Option.none, .log e, .notify e,
            .log e2, .notify e2])
      | .ok _ =>
          match env.probe with
          | .ok b => (.ret b, [.connect dbPath Option.none])
          | .error e =>
              (.ret false,
               [.connect dbPath Option.none, .log e, .notify e])

/-- table_exists (plugin.py lines 358-375): resolve name and path,
then delegate to _database_table_exists.  The None defaults of the
plugin and db_name parameters are represented by the equally falsy
empty string. -/
def tableExists (selfName : String) (env : TEEnv)
    (tableName plugin dbName : String) : TEOutcome × List Effect :=
  databaseTableExists env (tableExistsPath selfName plugin dbName) tableName

/-- Outcome of the file read inside _get_resource_content: the file
text, or the exception text when open/read raises. -/
structure ResEnv where
  readResult : Except String String

/-- _get_resource_content (plugin.py lines 183-192): return the file
content, or log, notify and return None on any read failure. -/
def getResourceContent (env : ResEnv) : Option String × List Effect :=
  match env.readResult with
  | .ok s => (some s, [])
  | .error e => (Option.none, [.log e, .notify e])

/-- Outcome of get_usage: either an exception escapes to the caller
or a value (possibly None) is returned. -/
inductive UsageOutcome where
  | raises : String → UsageOutcome
  | ret : Option String → UsageOutcome

/-- get_usage (plugin.py lines 150-167).  When the resource read
fails, _get_resource_content returns None after logging and
notifying, and get_usage returns None.  When it yields a non-empty
text, line 159 evaluates self.handle() - but handle is a property
(line 84) whose value is a str, so calling it raises
TypeError: str object is not callable, which no handler in get_usage
catches; the substitution and the replace loop are never reached.
An empty text is falsy and also yields None. -/
def getUsage (env : ResEnv) : UsageOutcome × List Effect :=
  match getResourceContent env with
  | (some s, effs) =>
      if s ≠ "" then
        (.raises "TypeError: str object is not callable", effs)
      else
        (.ret Option.none, effs)
  | (Option.none, effs) => (.ret Option.none, effs)

/-- Outcome of the owner filter: the wrapped handler runs, or the
wrapper falls through returning None (no reply, no exception). -/
inductive OwnerOutcome where
  | handler : OwnerOutcome
  | silent : OwnerOutcome

/-- The owner decorator body _owner (plugin.py lines 515-531): bypass
when the owner config value compares == False; otherwise run the
handler when the user id is contained in a truthy list under
admin.ids of the global config or under admins of the plugin config;
otherwise fall through silently (implicit return None - no message
is sent and nothing is raised). -/
def ownerFilter (pcfg : PluginCfg) (gcfg : GlobalCfg) (userId : Int) :
    OwnerOutcome × List Effect :=
  if pcfg.owner.eqFalse then (.handler, [])
  else if gcfg.adminIds.truthy && gcfg.adminIds.isList
          && gcfg.adminIds.hasInt userId then (.handler, [])
  else if pcfg.admins.truthy && pcfg.admins.isList
          && pcfg.admins.hasInt userId then (.handler, [])
  else (.silent, [])

/-- Outcome of the dependency filter. -/
inductive DepOutcome where
  | raises : String → DepOutcome
  | denied : String → DepOutcome
  | handler : DepOutcome

/-- The dependency decorator body _dependency (plugin.py lines
538-553).  When the configured dependencies value is a truthy list,
line 542 evaluates self.get_plugins() - but TGBFPlugin defines no
method get_plugins (the active-plugin accessor is the property
plugins, line 101, and no plugin under src/ defines one either), so
an AttributeError is raised before the loop over the dependencies;
the denial reply at lines 546-548 is unreachable.  When the value is
falsy or not a list, an error is logged (line 550, quotes of the
f-string elided) and the handler is invoked anyway.  The
activePlugins parameter models the active plugin set the dead loop
would have consulted. -/
def dependencyFilter (pcfg : PluginCfg) (selfName : String)
    (activePlugins : List String) : DepOutcome × List Effect :=
  if pcfg.dependencies.truthy && pcfg.dependencies.isList then
    let _ := activePlugins
    (.raises "AttributeError: TGBFPlugin object has no attribute get_plugins",
     [])
  else
    (.handler,
     [.log ("Dependencies for plugin " ++ selfName ++ " not defined as list")])

/-- A flat filesystem model for _init_plugin_cfg: the set of
directories known to exist and a map from file path to content. -/
structure FS where
  dirs : List String
  files : List (String × String)

/-- os.path.isfile on the model. -/
def FS.isFile (fs : FS) (p : String) : Bool :=
  (fs.files.lookup p).isSome

/-- _init_plugin_cfg (plugin.py lines 55-73): compute the config path
of the plugin, create the config directory (os.makedirs with
exist_ok=True), and when no config file exists there yet write the
empty JSON document to it before anything reads it. -/
def initPluginCfg (fs : FS) (name : String) : FS :=
  let cfgFile := name ++ ".json"
  let cfgFold := getCfgPath name
  let cfgPath := joinPath cfgFold cfgFile
  let fs1 : FS := { fs with dirs := cfgFold :: fs.dirs }
  if fs1.isFile cfgPath then fs1
  else { fs1 with files := (cfgPath, "\x7b\x7d") :: fs1.files }

/-- Config file path used by _init_plugin_cfg (lines 59-61). -/
def pluginCfgPath (name : String) : String :=
  joinPath (getCfgPath name) (name ++ ".json")

/-- Plugin name assignment (plugin.py line 27): the lowercased
implementation type name. -/
def pluginName (typeName : String) : String :=
  typeName.toLower

/-- The handle property (plugin.py lines 84-88): the lowercased
configured handle when one is present and truthy, else the plugin
name.  The configured value of the handle key is a string per the
per-plugin configuration interface. -/
def handleOf (cfgHandle : Option String) (name : String) : String :=
  match cfgHandle with
  | some h => if h ≠ "" then h.toLower else name
  | Option.none => name

/- ------------------------------------------------------------ -/
/- Helper lemmas shared by the claim theorems                   -/
/- ------------------------------------------------------------ -/

/-- Membership via == in a PyVal implies the value is a truthy list. -/
theorem PyVal.hasInt_truthy_isList {x : Int} {v : PyVal}
    (h : v.hasInt x = true) : v.truthy = true ∧ v.isList = true := by
  cases v with
  | list l =>
    refine ⟨?_, rfl⟩
    cases l with
    | nil => simp [PyVal.hasInt] at h
    | cons a l => simp [PyVal.truthy]
  | none => simp [PyVal.hasInt] at h
  | bool b => simp [PyVal.hasInt] at h
  | int n => simp [PyVal.hasInt] at h
  | str s => simp [PyVal.hasInt] at h

/-- The owner filter result is always handler-with-no-effects or
silent-with-no-effects. -/
theorem ownerFilter_cases (pcfg : PluginCfg) (gcfg : GlobalCfg) (uid : Int) :
    ownerFilter pcfg gcfg uid = (.handler, [])
    ∨ ownerFilter pcfg gcfg uid = (.silent, []) := by
  unfold ownerFilter
  split
  · exact Or.inl rfl
  · split
    · exact Or.inl rfl
    · split
      · exact Or.inl rfl
      · exact Or.inr rfl

/-- Appending a nonempty suffix changes a string. -/
theorem append_db_ne (s : String) : s ++ ".db" ≠ s := by
  intro h
  have hlen := congrArg String.length h
  simp [String.length_append] at hlen
  exact absurd hlen (by decide)

/-- Packing a valid scalar value and unpacking it is the identity. -/
theorem char_toNat_ofNat_valid (n : Nat) (h : n.isValidChar) :
    (Char.ofNat n).toNat = n := by
  unfold Char.ofNat
  rw [dif_pos h]
  rfl

/-- Unfolding of Char.toLower. -/
theorem char_toLower_def (c : Char) :
    c.toLower = if c.toNat ≥ 65 ∧ c.toNat ≤ 90
                then Char.ofNat (c.toNat + 32) else c := rfl

/-- Char.toLower is idempotent. -/
theorem char_toLower_idem (c : Char) : c.toLower.toLower = c.toLower := by
  rw [char_toLower_def c]
  by_cases h : c.toNat ≥ 65 ∧ c.toNat ≤ 90
  · rw [if_pos h, char_toLower_def]
    have hv : Nat.isValidChar (c.toNat + 32) := Or.inl (by omega)
    rw [char_toNat_ofNat_valid _ hv]
    exact if_neg (by omega)
  · rw [if_neg h, char_toLower_def, if_neg h]

/-- String.toLower is idempotent. -/
theorem string_toLower_idem (s : String) : s.toLower.toLower = s.toLower := by
  simp only [String.toLower, String.map_eq]
  apply congrArg String.mk
  rw [List.map_map]
  exact List.map_congr_left fun a _ => char_toLower_idem a

/- ------------------------------------------------------------ -/
/- Claim theorems                                               -/
/- ------------------------------------------------------------ -/

/-- Claim C1: for every SQL statement and every storage target, when
the global config flag database.use_db is not set (not truthy),
execute_sql and execute_global_sql return the result with success
false and data Database disabled, and perform no effects at all - in
particular no directory creation and no connection open. -/
theorem execute_sql_disabled (gcfg : GlobalCfg) (env : DbEnv)
    (selfName plugin dbName cwd : String)
    (h : gcfg.useDb.truthy = false) :
    executeSql selfName gcfg env plugin dbName
      = ({ success := some false, data := .str "Database disabled" }, [])
    ∧ executeGlobalSql cwd gcfg env
      = ({ success := some false, data := .str "Database disabled" }, []) := by
  constructor <;> simp [executeSql, executeGlobalSql, getDatabaseContent, h]

/-- Claim C1 witness: the disabled branch evaluated at a concrete
input (use_db absent from the global config). -/
theorem execute_sql_disabled_witness :
    (PyVal.truthy PyVal.none = false)
    ∧ executeSql "about"
        { useDb := .none, timeout := .none, adminIds := .none }
        { makedirsErr := Option.none, dbStep := .ok [] } "" ""
      = ({ success := some false, data := .str "Database disabled" }, []) :=
  ⟨rfl,
   (execute_sql_disabled
      { useDb := .none, timeout := .none, adminIds := .none }
      { makedirsErr := Option.none, dbStep := .ok [] }
      "about" "" "" "wd" rfl).1⟩

/-- Claim C2 counterexample: the claim states that any failure while
resolving or creating the storage location already yields a failure
result; but the except branch after os.makedirs (plugin.py lines
322-326) does not return, so when the subsequent connection and
execution succeed the recorded failure is overwritten and execute_sql
returns success - at this concrete input the makedirs step fails with
Permission denied yet the returned result has success true. -/
theorem execute_sql_mkdir_fail_counterexample :
    (executeSql "about"
      { useDb := .bool true, timeout := .none, adminIds := .none }
      { makedirsErr := some "Permission denied", dbStep := .ok [] }
      "" "").1
      = { success := some true, data := .rows [] } := rfl

/-- Claim C2 (amended): with storage enabled, a failure of the
connect/execute/commit/fetch step makes execute_sql return success
false with the error text as data, after logging and notifying it; a
failure at the directory-creation step is logged and notified but
execution continues to the connection attempt, whose outcome
determines the returned result (success with the fetched rows when
it succeeds); nothing is ever raised to the caller - the embedded
function is total and returns a result on every path. -/
theorem execute_sql_failure_result (gcfg : GlobalCfg) (env : DbEnv)
    (selfName plugin dbName : String)
    (hdb : gcfg.useDb.truthy = true) :
    (∀ e, env.dbStep = .error e →
       (executeSql selfName gcfg env plugin dbName).1
          = { success := some false, data := .str e }
       ∧ Effect.log e ∈ (executeSql selfName gcfg env plugin dbName).2
       ∧ Effect.notify e ∈ (executeSql selfName gcfg env plugin dbName).2)
    ∧ (∀ e, env.makedirsErr = some e →
       Effect.log e ∈ (executeSql selfName gcfg env plugin dbName).2
       ∧ Effect.notify e ∈ (executeSql selfName gcfg env plugin dbName).2)
    ∧ (∀ rows, env.dbStep = .ok rows →
       (executeSql selfName gcfg env plugin dbName).1
          = { success := some true, data := .rows rows }) := by
  refine ⟨?_, ?_, ?_⟩
  · intro e he
    cases hm : env.makedirsErr <;>
      simp [executeSql, getDatabaseContent, hdb, he, hm]
  · intro e hm
    cases hs : env.dbStep <;>
      simp [executeSql, getDatabaseContent, hdb, hm, hs]
  · intro rows hs
    cases hm : env.makedirsErr <;>
      simp [executeSql, getDatabaseContent, hdb, hs, hm]

/-- Claim C2 witness: the amended theorem applied at a concrete
failing execution (storage enabled, directory creation succeeds, the
execute step raises). -/
theorem execute_sql_failure_result_witness :
    (PyVal.truthy (PyVal.bool true) = true)
    ∧ ((executeSql "about"
          { useDb := .bool true, timeout := .none, adminIds := .none }
          { makedirsErr := Option.none, dbStep := .error "no such table: x" }
          "" "").1
        = { success := some false, data := .str "no such table: x" }
       ∧ Effect.log "no such table: x"
          ∈ (executeSql "about"
              { useDb := .bool true, timeout := .none, adminIds := .none }
              { makedirsErr := Option.none, dbStep := .error "no such table: x" }
              "" "").2
       ∧ Effect.notify "no such table: x"
          ∈ (executeSql "about"
              { useDb := .bool true, timeout := .none, adminIds := .none }
              { makedirsErr := Option.none, dbStep := .error "no such table: x" }
              "" "").2) :=
  ⟨rfl,
   (execute_sql_failure_result
      { useDb := .bool true, timeout := .none, adminIds := .none }
      { makedirsErr := Option.none, dbStep := .error "no such table: x" }
      "about" "" "" rfl).1 "no such table: x" rfl⟩

/-- Claim C3, code bug, evaluated at the failing input of the claim
scenario: plugin stats declares dependencies usage while the usage
plugin is inactive.  Line 542 of plugin.py calls self.get_plugins(),
a method TGBFPlugin does not define (the active-plugin accessor is
the property plugins), so the invocation raises AttributeError before
any denial reply can be sent - no reply naming usage is produced and
the claim scenario cannot happen.  The second conjunct shows the
half of the claim the code does satisfy: a non-list dependencies
value logs an error and the handler still runs. -/
theorem dependency_filter_attribute_error :
    dependencyFilter
      { handleCfg := Option.none, owner := .none, admins := .none,
        dependencies := .list [.str "usage"] } "stats" []
      = (.raises "AttributeError: TGBFPlugin object has no attribute get_plugins",
         [])
    ∧ dependencyFilter
      { handleCfg := Option.none, owner := .none, admins := .none,
        dependencies := .int 5 } "stats" ["usage"]
      = (.handler,
         [.log "Dependencies for plugin stats not defined as list"]) :=
  ⟨rfl, rfl⟩

/-- Claim C4, code bug, evaluated at the failing input: a readable,
non-empty usage resource file.  Line 159 of plugin.py evaluates
self.handle() - but handle is a property whose value is a str, so
the call raises TypeError to the caller instead of returning the
substituted text.  The second conjunct shows the read-failure half
of the claim, which the code does satisfy: the failure is logged and
notified and None is returned without raising. -/
theorem get_usage_type_error :
    (getUsage { readResult := .ok "Usage: send a command" }).1
      = .raises "TypeError: str object is not callable"
    ∧ getUsage { readResult := .error "No such file or directory" }
      = (.ret Option.none,
         [.log "No such file or directory",
          .notify "No such file or directory"]) :=
  ⟨rfl, rfl⟩

/-- Claim C5: when the owner config value compares equal to False
the handler runs unconditionally; otherwise the handler runs exactly
when the invoking user id is contained in the global admin id list
or in the plugin admins list; and whenever the handler does not run
the filter returns silently, with no reply, no other effect and no
exception (the outcome is the silent constructor and the effect list
is empty). -/
theorem owner_filter_admits (pcfg : PluginCfg) (gcfg : GlobalCfg)
    (userId : Int) :
    (pcfg.owner.eqFalse = true →
       ownerFilter pcfg gcfg userId = (.handler, []))
    ∧ (pcfg.owner.eqFalse = false →
       ((ownerFilter pcfg gcfg userId).1 = .handler
          ↔ gcfg.adminIds.hasInt userId = true
            ∨ pcfg.admins.hasInt userId = true))
    ∧ ((ownerFilter pcfg gcfg userId).1 ≠ .handler →
       ownerFilter pcfg gcfg userId = (.silent, [])) := by
  refine ⟨?_, ?_, ?_⟩
  · intro h
    simp [ownerFilter, h]
  · intro h0
    by_cases hg : gcfg.adminIds.hasInt userId = true
    · obtain ⟨ht, hl⟩ := PyVal.hasInt_truthy_isList hg
      simp [ownerFilter, h0, hg, ht, hl]
    · by_cases hp : pcfg.admins.hasInt userId = true
      · obtain ⟨ht, hl⟩ := PyVal.hasInt_truthy_isList hp
        simp [ownerFilter, h0, hg, hp, ht, hl]
      · simp [ownerFilter, h0, hg, hp]
  · intro hne
    rcases ownerFilter_cases pcfg gcfg userId with h | h
    · exact absurd (by rw [h]) hne
    · exact h

/-- Claim C5 witness: the claim scenario - owner set to true, user
in neither admin list - evaluated concretely: the handler is not
admitted and the filter returns silently with no effects. -/
theorem owner_filter_admits_witness :
    (PyVal.eqFalse (PyVal.bool true) = false)
    ∧ ((ownerFilter
          { handleCfg := Option.none, owner := .bool true,
            admins := .list [.int 7], dependencies := .none }
          { useDb := .none, timeout := .none, adminIds := .list [.int 1] }
          99).1 = .handler
        ↔ PyVal.hasInt 99 (PyVal.list [.int 1]) = true
          ∨ PyVal.hasInt 99 (PyVal.list [.int 7]) = true) :=
  ⟨rfl,
   (owner_filter_admits
      { handleCfg := Option.none, owner := .bool true,
        admins := .list [.int 7], dependencies := .none }
      { useDb := .none, timeout := .none, adminIds := .list [.int 1] }
      99).2.1 rfl⟩

/-- Claim C6: table_exists answers False with no effect at all - no
exception, no log entry, no connection - when the storage file does
not exist; and when the file exists, the connection opens and the
schema probe itself fails, the failure is logged and notified and
the call still returns False instead of raising. -/
theorem table_exists_false_cases (env : TEEnv)
    (selfName tableName plugin dbName : String) :
    (env.isFile = false →
       tableExists selfName env tableName plugin dbName = (.ret false, []))
    ∧ (env.isFile = true → env.connectErr = Option.none →
       ∀ s e, env.resource = .ok s → env.probe = .error e →
         (tableExists selfName env tableName plugin dbName).1 = .ret false
         ∧ Effect.log e
             ∈ (tableExists selfName env tableName plugin dbName).2
         ∧ Effect.notify e
             ∈ (tableExists selfName env tableName plugin dbName).2) := by
  constructor
  · intro h
    simp [tableExists, databaseTableExists, h]
  · intro hf hc s e hr hp
    simp [tableExists, databaseTableExists, hf, hc, hr, hp]

/-- Claim C6 witness: both branches evaluated concretely - a missing
file, and an existing file whose probe raises. -/
theorem table_exists_false_cases_witness :
    (tableExists "about"
       { isFile := false, connectErr := Option.none,
         resource := .ok "SELECT name FROM sqlite_master",
         probe := .ok true }
       "feedback" "" "" = (.ret false, []))
    ∧ ((tableExists "about"
         { isFile := true, connectErr := Option.none,
           resource := .ok "SELECT name FROM sqlite_master",
           probe := .error "file is not a database" }
         "feedback" "" "").1 = .ret false
       ∧ Effect.log "file is not a database"
           ∈ (tableExists "about"
               { isFile := true, connectErr := Option.none,
                 resource := .ok "SELECT name FROM sqlite_master",
                 probe := .error "file is not a database" }
               "feedback" "" "").2
       ∧ Effect.notify "file is not a database"
           ∈ (tableExists "about"
               { isFile := true, connectErr := Option.none,
                 resource := .ok "SELECT name FROM sqlite_master",
                 probe := .error "file is not a database" }
               "feedback" "" "").2) :=
  ⟨(table_exists_false_cases
      { isFile := false, connectErr := Option.none,
        resource := .ok "SELECT name FROM sqlite_master",
        probe := .ok true }
      "about" "feedback" "" "").1 rfl,
   (table_exists_false_cases
      { isFile := true, connectErr := Option.none,
        resource := .ok "SELECT name FROM sqlite_master",
        probe := .error "file is not a database" }
      "about" "feedback" "" "").2 rfl rfl
      "SELECT name FROM sqlite_master" "file is not a database" rfl rfl⟩

/-- Claim C7: with no explicit database name the resolved storage
file name is the target plugin name (defaulting to the calling
plugin's own name) with the .db suffix; an explicit database name
gets the .db suffix appended exactly when its lowercasing does not
already end in .db.  The last two conjuncts tie the shared
resolution to where execute_sql and table_exists place the file. -/
theorem resolve_db_name_convention (selfName plugin dbName : String) :
    (dbName = "" →
       resolveDbName selfName plugin dbName
         = (if plugin ≠ "" then plugin else selfName) ++ ".db")
    ∧ (dbName ≠ "" →
       (resolveDbName selfName plugin dbName = dbName ++ ".db"
          ↔ strEndsWith dbName.toLower ".db" = false)
       ∧ (resolveDbName selfName plugin dbName = dbName
          ↔ strEndsWith dbName.toLower ".db" = true))
    ∧ executeSqlPath selfName plugin dbName
        = joinPath
            (getDatPath (if plugin ≠ "" then plugin.toLower else selfName))
            (resolveDbName selfName plugin dbName)
    ∧ tableExistsPath selfName plugin dbName
        = joinPath
            (getDatPath (if plugin ≠ "" then plugin else selfName))
            (resolveDbName selfName plugin dbName) := by
  refine ⟨?_, ?_, ?_, ?_⟩
  · intro h
    by_cases hp : plugin = "" <;> simp [resolveDbName, h, hp]
  · intro h
    by_cases he : strEndsWith dbName.toLower ".db" = true
    · have hval : resolveDbName selfName plugin dbName = dbName := by
        simp [resolveDbName, h, he]
      rw [hval, he]
      constructor
      · constructor
        · intro hx
          exact absurd hx.symm (append_db_ne dbName)
        · intro hx
          exact Bool.noConfusion hx
      · simp
    · have he2 : strEndsWith dbName.toLower ".db" = false :=
        Bool.eq_false_iff.mpr he
      have hval : resolveDbName selfName plugin dbName = dbName ++ ".db" := by
        simp [resolveDbName, h, he2]
      rw [hval, he2]
      constructor
      · simp
      · constructor
        · intro hx
          exact absurd hx (append_db_ne dbName)
        · intro hx
          exact Bool.noConfusion hx
  · by_cases hp : plugin = "" <;> simp [executeSqlPath, hp]
  · by_cases hp : plugin = "" <;> simp [tableExistsPath, hp]

/-- Claim C7 witness: the resolution evaluated with an explicit
database name not ending in .db - the suffix gets appended. -/
theorem resolve_db_name_convention_witness :
    (("custom" : String) ≠ ""
     ∧ strEndsWith ("custom" : String).toLower ".db" = false)
    ∧ (resolveDbName "about" "usage" "custom" = "custom" ++ ".db"
        ↔ strEndsWith ("custom" : String).toLower ".db" = false) :=
  ⟨⟨by decide,
    by
      have h : ("custom" : String).toLower = "custom" := by
        simp [String.toLower, String.map_eq]
      rw [h]; decide⟩,
   ((resolve_db_name_convention "about" "usage" "custom").2.1
      (by decide)).1⟩

/-- Claim C8: after _init_plugin_cfg runs for a plugin, the config
directory is known to exist, the config file exists, a pre-existing
config file keeps its content, and an absent one now holds the empty
JSON document - so later accesses find a valid file and creation
never fails lazily. -/
theorem init_plugin_cfg_file_exists (fs : FS) (name : String) :
    (getCfgPath name) ∈ (initPluginCfg fs name).dirs
    ∧ (initPluginCfg fs name).isFile (pluginCfgPath name) = true
    ∧ (fs.isFile (pluginCfgPath name) = true →
       (initPluginCfg fs name).files.lookup (pluginCfgPath name)
         = fs.files.lookup (pluginCfgPath name))
    ∧ (fs.isFile (pluginCfgPath name) = false →
       (initPluginCfg fs name).files.lookup (pluginCfgPath name)
         = some "\x7b\x7d") := by
  have hif : initPluginCfg fs name =
      if fs.isFile (pluginCfgPath name) = true then
        { dirs := getCfgPath name :: fs.dirs, files := fs.files }
      else
        { dirs := getCfgPath name :: fs.dirs,
          files := (pluginCfgPath name, "\x7b\x7d") :: fs.files } := rfl
  by_cases h : fs.isFile (pluginCfgPath name) = true
  · rw [hif, if_pos h]
    exact ⟨List.mem_cons_self _ _, h, fun _ => rfl,
           fun hf => absurd h (by simp [hf])⟩
  · rw [hif, if_neg h]
    refine ⟨List.mem_cons_self _ _, ?_, fun hf => absurd hf h, fun _ => ?_⟩
    · show (((pluginCfgPath name, "\x7b\x7d") :: fs.files).lookup
              (pluginCfgPath name)).isSome = true
      simp [List.lookup]
    · show ((pluginCfgPath name, "\x7b\x7d") :: fs.files).lookup
          (pluginCfgPath name) = some "\x7b\x7d"
      simp [List.lookup]

/-- Claim C8 witness: construction on an empty filesystem creates
the config file with the empty JSON document as content. -/
theorem init_plugin_cfg_file_exists_witness :
    (FS.isFile { dirs := [], files := [] } (pluginCfgPath "about") = false)
    ∧ (initPluginCfg { dirs := [], files := [] } "about").files.lookup
        (pluginCfgPath "about") = some "\x7b\x7d" :=
  ⟨rfl,
   (init_plugin_cfg_file_exists { dirs := [], files := [] } "about").2.2.2
     rfl⟩

/-- Claim C9: the plugin name is the lowercased implementation type
name, the handle equals the name whenever the config provides no
handle override (absent or empty), and with an override present the
handle is obtained from the configured value (lowercased, per the
handle property). -/
theorem plugin_name_handle_defaults (typeName : String)
    (cfgHandle : Option String) :
    pluginName typeName = typeName.toLower
    ∧ ((cfgHandle = Option.none ∨ cfgHandle = some "") →
       handleOf cfgHandle (pluginName typeName) = pluginName typeName)
    ∧ (∀ s, cfgHandle = some s → s ≠ "" →
       handleOf cfgHandle (pluginName typeName) = s.toLower) := by
  refine ⟨rfl, ?_, ?_⟩
  · rintro (rfl | rfl) <;> simp [handleOf]
  · rintro s rfl hs
    simp [handleOf, hs]

/-- Claim C9 witness: the default case and the override case
evaluated concretely. -/
theorem plugin_name_handle_defaults_witness :
    ((Option.none : Option String) = Option.none
     ∧ (some "helpme" = some "helpme" ∧ ("helpme" : String) ≠ ""))
    ∧ (handleOf Option.none (pluginName "About") = pluginName "About"
       ∧ handleOf (some "helpme") (pluginName "About")
           = ("helpme" : String).toLower) :=
  ⟨⟨rfl, rfl, by decide⟩,
   (plugin_name_handle_defaults "About" Option.none).2.1 (Or.inl rfl),
   (plugin_name_handle_defaults "About" (some "helpme")).2.2 "helpme" rfl
     (by decide)⟩

/-- Claim C10: the handle property always yields an all-lowercase
string - lowercasing it again changes nothing - and a configured
override whose lowercasing differs from it (a mixed-case value) is
never returned verbatim. -/
theorem handle_always_lowercase (typeName : String)
    (cfgHandle : Option String) :
    ((handleOf cfgHandle (pluginName typeName)).toLower
       = handleOf cfgHandle (pluginName typeName))
    ∧ (∀ s, cfgHandle = some s → s.toLower ≠ s →
       handleOf cfgHandle (pluginName typeName) ≠ s) := by
  constructor
  · cases cfgHandle with
    | none => exact string_toLower_idem typeName
    | some h =>
      by_cases hh : h = ""
      · have hval : handleOf (some h) (pluginName typeName)
            = pluginName typeName := by simp [handleOf, hh]
        rw [hval]
        exact string_toLower_idem typeName
      · have hval : handleOf (some h) (pluginName typeName)
            = h.toLower := by simp [handleOf, hh]
        rw [hval]
        exact string_toLower_idem h
  · rintro s rfl hs
    by_cases hse : s = ""
    · subst hse
      have : ("" : String).toLower = "" := by
        simp [String.toLower, String.map_eq]
      exact absurd this hs
    · show (if s ≠ "" then s.toLower else pluginName typeName) ≠ s
      rw [if_pos hse]
      exact hs

/-- Claim C10 witness: a mixed-case configured handle evaluated
concretely - the returned handle is its lowercasing, not the
configured spelling. -/
theorem handle_always_lowercase_witness :
    (some "Stats" = some ("Stats" : String)
     ∧ ("Stats" : String).toLower ≠ "Stats")
    ∧ handleOf (some "Stats") (pluginName "Stats") ≠ "Stats" :=
  ⟨⟨rfl, by simp [String.toLower, String.map_eq]⟩,
   (handle_always_lowercase "Stats" (some "Stats")).2 "Stats" rfl
     (by simp [String.toLower, String.map_eq])⟩

end TGBF
